import Mathlib

/-!
# Verification of the `landscape` WebGL renderer (`src/js/renderer.js`)

Shallow embedding of the renderer's core logic:

* the mesh generator `generateGrid_` / `generateGridIndices_`
  (renderer.js lines 468-511),
* the batch shader/program set-up `setUpWebGL_` with its helpers
  `createShaderFromScript_` / `createProgram_` (lines 140-299),
* the canvas event handlers installed by `setUpCanvas_` (lines 108-127),
* the frame scheduler `startRendering` / `resize_` (lines 305-366).

JavaScript numbers are modelled as `ℚ` (all values occurring here are exactly
representable binary64 values), `Uint16Array` element storage as reduction
modulo 2^16, and the WebGL/DOM hosts as explicit environments.
-/

namespace Landscape.Renderer

/-- The grid dimension constant (renderer.js line 99). -/
def GRID_DIMENSION_ : ℕ := 20

/-! ## Mesh generator

The vertex buffer is a `Float32Array`, whose element store converts each
written number to binary32 (IEEE 754 single precision) with rounding mode
roundTiesToEven.  That conversion is modelled by `fround32` below: the value
is rounded to 24 significant bits, to nearest, ties to even.  The exponent
range of binary32 is not modelled: the values this renderer stores are 0 or
half-integers (never subnormal, which would need magnitudes below `2^-126`),
and magnitudes at or above `2^128` (where binary32 overflows to infinity)
would require a dimension for which the `Float32Array` allocation itself is
impossible, so within the program's reachable states `fround32` agrees with
the binary32 store. -/

/-- The nearest integer to `x`, ties going to the even integer
(IEEE 754 roundTiesToEven at integer granularity). -/
def roundNearestEven (x : ℚ) : ℤ :=
  if x - (⌊x⌋ : ℚ) < 1 / 2 then ⌊x⌋
  else if 1 / 2 < x - (⌊x⌋ : ℚ) then ⌊x⌋ + 1
  else if ⌊x⌋ % 2 = 0 then ⌊x⌋ else ⌊x⌋ + 1

/-- `⌊log2 (n / d)⌋` for positive naturals `n`, `d`: with `a = Nat.log2 n` and
`b = Nat.log2 d` the quotient lies in `(2^(a-b-1), 2^(a-b+1))`, and comparing
`n / d` against `2^(a-b)` picks the right candidate. -/
def qlog2 (n d : ℕ) : ℤ :=
  let a := Nat.log2 n
  let b := Nat.log2 d
  if b ≤ a then
    if d * 2 ^ (a - b) ≤ n then (a : ℤ) - (b : ℤ) else (a : ℤ) - (b : ℤ) - 1
  else
    if d ≤ n * 2 ^ (b - a) then (a : ℤ) - (b : ℤ) else (a : ℤ) - (b : ℤ) - 1

/-- The `Float32Array` element store: round to 24 significant bits, to
nearest, ties to even.  For nonzero `x` with `e = ⌊log2 |x|⌋` the quantum is
`2^(e-23)`; `x` is scaled by its inverse, rounded to an integer, and scaled
back (a carry into the next binade is produced automatically by the final
scaling). -/
def fround32 (x : ℚ) : ℚ :=
  if x = 0 then 0
  else
    (roundNearestEven (x * (2 : ℚ) ^ ((23 : ℤ) - qlog2 x.num.natAbs x.den)) : ℚ) *
      (2 : ℚ) ^ (qlog2 x.num.natAbs x.den - 23)

/-- `generateGrid_` (renderer.js lines 468-481): with `half = dimension / 2`,
the outer loop runs `i` from `-half` to `half` step 1 and the inner loop runs
`j` likewise, writing `j` then `i` into a `Float32Array` of size
`2*(dimension+1)^2`; each write stores the binary32 value `fround32` of the
written number.  A loop `for (v = -half; v <= half; v++)` performs exactly
`dimension + 1` iterations with values `-half + k`, `k = 0 .. dimension`
(`-half + dimension = half` and `-half + (dimension+1) > half`), which is how
the loops are rendered below.  The loop variables themselves are binary64 and
exact here. -/
def generateGrid_ (dimension : ℕ) : List ℚ :=
  ((List.range (dimension + 1)).map (fun (ki : ℕ) =>
    ((List.range (dimension + 1)).map (fun (kj : ℕ) =>
      [fround32 (-((dimension : ℚ) / 2) + (kj : ℚ)),
       fround32 (-((dimension : ℚ) / 2) + (ki : ℚ))])).flatten)).flatten

/-- The index values computed by `generateGridIndices_` (renderer.js lines
492-511) before they are stored: per row `i < dimension`, with
`start1 = i*(dimension+1)` and `start2 = (i+1)*(dimension+1)`, the values
`start1, start2` followed by `start1 + j, start2 + j` for `j = 1 .. dimension`.
These are the right-hand sides of the `array[idx++] = ...` assignments. -/
def emittedGridIndices (dimension : ℕ) : List ℕ :=
  ((List.range dimension).map (fun i =>
    i * (dimension + 1) :: (i + 1) * (dimension + 1) ::
      ((List.range dimension).map (fun jm =>
        [i * (dimension + 1) + (jm + 1), (i + 1) * (dimension + 1) + (jm + 1)])).flatten)).flatten

/-- `generateGridIndices_` (renderer.js lines 492-511).  The computed index
values are written into a `Uint16Array`, whose element store reduces each
value modulo 2^16. -/
def generateGridIndices_ (dimension : ℕ) : List ℕ :=
  (emittedGridIndices dimension).map (fun x => x % 65536)

/-- Modelled from the spec wording of the index contract (§4.1 / claim C5):
for each row `i` in `[0, dimension)` emit the pair `(start1, start2)` followed
by the pairs `(start1 + j, start2 + j)` for `j` in `[1, dimension]`, with no
16-bit reduction. -/
def specGridIndices (dimension : ℕ) : List ℕ :=
  ((List.range dimension).map (fun i =>
    i * (dimension + 1) :: (i + 1) * (dimension + 1) ::
      ((List.range dimension).map (fun jm =>
        [i * (dimension + 1) + (jm + 1), (i + 1) * (dimension + 1) + (jm + 1)])).flatten)).flatten

/-- Modelled from the spec wording of the vertex contract (§4.1 / claim C4):
the integer lattice points of the interval `[-half, half]`, ascending. -/
def latticePoints (half : ℚ) : List ℤ :=
  (List.range (Int.toNat (⌊half⌋ - ⌈-half⌉ + 1))).map (fun (k : ℕ) => ⌈-half⌉ + (k : ℤ))

/-- Modelled from the spec wording of the vertex contract (§4.1 / claim C4):
one vertex per integer lattice point `(j, i)` with `i, j` ranging over the
integers of `[-half, half]`, outer loop `i` ascending, inner loop `j`
ascending, emitting the components `j, i` in that order. -/
def specGridVertices (dimension : ℕ) : List ℚ :=
  ((latticePoints ((dimension : ℚ) / 2)).map (fun (i : ℤ) =>
    ((latticePoints ((dimension : ℚ) / 2)).map (fun (j : ℤ) =>
      [(j : ℚ), (i : ℚ)])).flatten)).flatten

/-! ## WebGL batch set-up (`setUpWebGL_`, renderer.js lines 140-299)

The WebGL host is modelled as an environment `GLEnv` fixing the outcome of
every host call, and a state `GLState` tracking the live shader/program objects
(identified by consecutive numeric ids), plus two traces: the script-tag
lookups performed by `createShaderFromScript_` and the
`(program, vertexShader, fragmentShader)` attachments performed by
`createProgram_`.  Thrown `Error`s are modelled as `Except.error` carrying the
exact message string; rethrowing `new Error(e.message)` preserves the message,
so the catch block re-raises the same string.  A `WebGLShader` object
interpolated into a message string prints as `[object WebGLShader]`, which is
how line 263 of the source renders the failing shader. -/
/-- The apostrophe character used in the source's error messages. -/
def apos : String := (Char.ofNat 39).toString

def msgNoContext : String := "Could not get a WebGL context."

def msgNoExtension (extension : String) : String :=
  "Could not load extension: " ++ extension

def msgNoScript (scriptId : String) : String :=
  "Could not find script with id " ++ apos ++ scriptId ++ apos ++ " containing shader code"

def msgBadType (scriptId : String) : String :=
  "The shader script with if " ++ apos ++ scriptId ++ apos ++
    " does not contain a valid type for the shader."

def msgCompile (log : String) : String :=
  "Error compiling shader " ++ apos ++ "[object WebGLShader]" ++ apos ++ ": " ++ log

def msgLink (log : String) : String :=
  "Error linking program: " ++ log

/-- TypeError raised when a property is read off `undefined` (raised by the
restore handler, which calls `setUpWebGL_` with `this` unbound). -/
def msgTypeError : String :=
  "TypeError: cannot read property getContext of undefined"

/-- The extension enabled up front (renderer.js line 166). -/
def extOES : String := "OES_standard_derivatives"

/-- Shader stage recorded in a script tag's `type` attribute. -/
inductive ShaderKind
  | vertex
  | fragment
deriving DecidableEq

/-- One entry of `PROGRAM_SHADERS_`. -/
structure ProgDesc where
  id : String
  vertex : String
  fragment : String
deriving DecidableEq

/-- Outcomes of all host (WebGL/DOM) calls during a batch. -/
structure GLEnv where
  contextAvailable : Bool
  contextLost : Bool
  extensionAvailable : String → Bool
  scriptExists : String → Bool
  scriptKind : String → Option ShaderKind
  compileStatus : ℕ → Bool
  shaderInfoLog : ℕ → String
  linkStatus : ℕ → Bool
  programInfoLog : ℕ → String

/-- GPU-side object state plus call traces. -/
structure GLState where
  nextId : ℕ
  shaders : List ℕ
  programs : List ℕ
  lookupTrace : List String
  attachTrace : List (ℕ × ℕ × ℕ)
deriving DecidableEq

/-- The GLState state of a freshly acquired context: no objects, no calls. -/
def glInit : GLState := ⟨0, [], [], [], []⟩

/-- `Landscape.Renderer.createShaderFromScript_` (renderer.js lines 234-269):
look up the script tag, determine the stage from its `type` attribute, create
and compile a shader; on compile failure (with the context not lost) read the
info log, delete the shader and throw.  The compile-error message renders the
shader object, which stringifies to `[object WebGLShader]`. -/
def createShaderFromScript_ (env : GLEnv) (gl : GLState) (scriptId : String) :
    GLState × Except String ℕ :=
  let gl0 := { gl with lookupTrace := gl.lookupTrace ++ [scriptId] }
  if !(env.scriptExists scriptId) then
    (gl0, Except.error (msgNoScript scriptId))
  else
    match env.scriptKind scriptId with
    | none => (gl0, Except.error (msgBadType scriptId))
    | some _ =>
      let s := gl0.nextId
      let gl1 := { gl0 with nextId := gl0.nextId + 1, shaders := s :: gl0.shaders }
      if !(env.compileStatus s) && !(env.contextLost) then
        ({ gl1 with shaders := gl1.shaders.filter (fun x => x != s) },
         Except.error (msgCompile (env.shaderInfoLog s)))
      else
        (gl1, Except.ok s)

/-- `Landscape.Renderer.createProgram_` (renderer.js lines 283-299): create a
program, attach both shaders, link; on link failure (with the context not
lost) read the info log, delete the program and throw.  The link-error
message names neither the program nor its shaders. -/
def createProgram_ (env : GLEnv) (gl : GLState) (vertexShader fragmentShader : ℕ) :
    GLState × Except String ℕ :=
  let p := gl.nextId
  let gl1 : GLState :=
    { gl with
      nextId := gl.nextId + 1
      programs := p :: gl.programs
      attachTrace := gl.attachTrace ++ [(p, vertexShader, fragmentShader)] }
  if !(env.linkStatus p) && !(env.contextLost) then
    ({ gl1 with programs := gl1.programs.filter (fun x => x != p) },
     Except.error (msgLink (env.programInfoLog p)))
  else
    (gl1, Except.ok p)

/-- The first `for` loop of `setUpWebGL_` (renderer.js lines 169-174):
compile the shaders of `SHADER_IDS_` in order, caching them keyed by id; an
exception aborts the loop, leaving the cache at the entries built so far.
(`SHADER_IDS_` is duplicate-free, so the JS object write `shaders[id] = s`
coincides with appending to an association list.) -/
def compileLoop_ (env : GLEnv) :
    GLState → List (String × ℕ) → List String → GLState × List (String × ℕ) × Except String Unit
  | gl, acc, [] => (gl, acc, Except.ok ())
  | gl, acc, scriptId :: rest =>
    match createShaderFromScript_ env gl scriptId with
    | (gl1, Except.ok s) => compileLoop_ env gl1 (acc ++ [(scriptId, s)]) rest
    | (gl1, Except.error e) => (gl1, acc, Except.error e)

/-- The second `for` loop of `setUpWebGL_` (renderer.js lines 177-183): link
one program per descriptor from the cached shaders, recording it in
`this.programs_`; an exception aborts the loop. -/
def linkLoop_ (env : GLEnv) (cache : List (String × ℕ)) :
    GLState → List (String × ℕ) → List ProgDesc → GLState × List (String × ℕ) × Except String Unit
  | gl, progs, [] => (gl, progs, Except.ok ())
  | gl, progs, d :: rest =>
    match createProgram_ env gl ((cache.lookup d.vertex).getD 0)
        ((cache.lookup d.fragment).getD 0) with
    | (gl1, Except.ok p) => linkLoop_ env cache gl1 (progs ++ [(d.id, p)]) rest
    | (gl1, Except.error e) => (gl1, progs, Except.error e)

/-- The `catch` block of `setUpWebGL_` (renderer.js lines 184-196): delete
every shader in the cache and every program object recorded in
`this.programs_`.  The map `this.programs_` itself is *not* cleared. -/
def deleteBatch_ (gl : GLState) (cache : List (String × ℕ)) (progs : List (String × ℕ)) : GLState :=
  let gl1 := cache.foldl
    (fun g p => { g with shaders := g.shaders.filter (fun x => x != p.2) }) gl
  progs.foldl
    (fun g p => { g with programs := g.programs.filter (fun x => x != p.2) }) gl1

/-- `Landscape.Renderer.setUpWebGL_` (renderer.js lines 140-199).

`thisCanvas` models the `this` binding of the call: the constructor invokes
`setUpWebGL_.call(this)` so `this.canvas_` is the renderer's canvas
(`some ()`); the `webglcontextrestored` handler (line 124) instead calls
`Landscape.Renderer.setUpWebGL_()`, making `this` the `Landscape.Renderer`
namespace object, whose `canvas_` property is `undefined` (`none`) — reading
`getContext` off it throws a TypeError before anything else happens.

`programs0` is the content of `this.programs_` on entry (empty at
construction).  The result is the final GLState state, the final content of
`this.programs_`, and either success or the thrown error message. -/
def setUpWebGL_ (env : GLEnv) (thisCanvas : Option Unit) (programs0 : List (String × ℕ))
    (shaderIds : List String) (programShaders : List ProgDesc) (gl : GLState) :
    GLState × List (String × ℕ) × Except String Unit :=
  match thisCanvas with
  | none => (gl, programs0, Except.error msgTypeError)
  | some _ =>
    if !env.contextAvailable then
      (gl, programs0, Except.error msgNoContext)
    else if !(env.extensionAvailable extOES) then
      (deleteBatch_ gl [] programs0, programs0, Except.error (msgNoExtension extOES))
    else
      match compileLoop_ env gl [] shaderIds with
      | (gl1, cache, Except.error e) =>
        (deleteBatch_ gl1 cache programs0, programs0, Except.error e)
      | (gl1, cache, Except.ok _) =>
        match linkLoop_ env cache gl1 programs0 programShaders with
        | (gl2, progs, Except.error e) => (deleteBatch_ gl2 cache progs, progs, Except.error e)
        | (gl2, progs, Except.ok _) => (gl2, progs, Except.ok ())

/-- Shader script-tag ids (renderer.js lines 74-77). -/
def wireframeVertexId : String := "wireframeVertex"

def wireframeFragmentId : String := "wireframeFragment"

def SHADER_IDS_ : List String := [wireframeVertexId, wireframeFragmentId]

/-- Program names (renderer.js lines 84-87). -/
def wireframeId : String := "wireframe"

def mountainsId : String := "mountains"

/-- `PROGRAM_SHADERS_` (renderer.js lines 84-87): two programs sharing the
same vertex and fragment sources. -/
def PROGRAM_SHADERS_ : List ProgDesc :=
  [⟨wireframeId, wireframeVertexId, wireframeFragmentId⟩,
   ⟨mountainsId, wireframeVertexId, wireframeFragmentId⟩]

/-- The shader cache produced by a fully successful compile loop: each source
id is bound to the next consecutive object id. -/
def expectedShaders : List String → ℕ → List (String × ℕ)
  | [], _ => []
  | scriptId :: rest, n => (scriptId, n) :: expectedShaders rest (n + 1)

/-- The program map produced by a fully successful link loop. -/
def expectedProgs : List ProgDesc → ℕ → List (String × ℕ)
  | [], _ => []
  | d :: rest, n => (d.id, n) :: expectedProgs rest (n + 1)

/-- The attachments performed by a fully successful link loop: each program is
attached to the cached shaders referenced by its descriptor. -/
def expectedAttach : List ProgDesc → List (String × ℕ) → ℕ → List (ℕ × ℕ × ℕ)
  | [], _, _ => []
  | d :: rest, cache, n =>
    (n, (cache.lookup d.vertex).getD 0, (cache.lookup d.fragment).getD 0) ::
      expectedAttach rest cache (n + 1)

/-- The host environment in which every WebGL call succeeds. -/
def envAllOk : GLEnv :=
  ⟨true, false, fun _ => true, fun _ => true, fun _ => some ShaderKind.vertex,
   fun _ => true, fun _ => "", fun _ => true, fun _ => ""⟩

/-- Success everywhere except that linking the second program object (id 3,
the `mountains` program) fails with an empty info log. -/
def envLinkFailSecond : GLEnv := { envAllOk with linkStatus := fun p => p != 3 }

/-- Success everywhere except that linking the first program object (id 2,
the `wireframe` program) fails with an empty info log. -/
def envLinkFailFirst : GLEnv := { envAllOk with linkStatus := fun p => p != 2 }

/-! ## Frame scheduler and canvas event handlers

`requestAnimationFrame` hands out fresh nonzero handles and queues the
callback; `cancelAnimationFrame` removes a queued callback.  The renderer's
`renderingLoopId_` starts at 0 ("no active rendering loop"). -/
structure Sched where
  nextHandle : ℕ
  pending : List ℕ
deriving DecidableEq

/-- `Landscape.Renderer.requestAnimationFrame_` (renderer.js lines 56-59):
returns a fresh handle and queues the frame callback under it. -/
def requestAnimationFrame_ (s : Sched) : ℕ × Sched :=
  (s.nextHandle, ⟨s.nextHandle + 1, s.pending ++ [s.nextHandle]⟩)

/-- `Landscape.Renderer.cancelAnimationFrame_` (renderer.js lines 66-67):
removes the callback queued under `handle`, a no-op for unknown handles. -/
def cancelAnimationFrame_ (s : Sched) (handle : ℕ) : Sched :=
  ⟨s.nextHandle, s.pending.filter (fun x => x != handle)⟩

/-- `Landscape.Renderer.prototype.startRendering` (renderer.js lines 305-318):
cancel any active loop, regenerate the grid buffers (pure, no scheduler
effect), and schedule the first frame, storing its handle. -/
def startRendering (renderingLoopId : ℕ) (s : Sched) : ℕ × Sched :=
  let s1 := if renderingLoopId != 0 then cancelAnimationFrame_ s renderingLoopId else s
  requestAnimationFrame_ s1

/-- The `webglcontextlost` handler installed by `setUpCanvas_` (renderer.js
lines 115-120): after `event.preventDefault()`, cancel the active loop if one
is running.  The handler never writes `renderingLoopId_`. -/
def webglcontextlost (renderingLoopId : ℕ) (s : Sched) : ℕ × Sched :=
  if renderingLoopId != 0 then
    (renderingLoopId, cancelAnimationFrame_ s renderingLoopId)
  else
    (renderingLoopId, s)

/-- The `webglcontextrestored` handler installed by `setUpCanvas_`
(renderer.js lines 123-126): `this.gl_ = Landscape.Renderer.setUpWebGL_();
this.startRendering();`.  The call `Landscape.Renderer.setUpWebGL_()` binds
`this` inside `setUpWebGL_` to the `Landscape.Renderer` namespace object
(unlike the constructor's `setUpWebGL_.call(this)`), whose `canvas_` property
is `undefined` — hence `thisCanvas = none` and the TypeError propagates out of
the handler before `startRendering` can run.  The result pairs the state
`(renderingLoopId_, scheduler, gl, programs_)` after the handler with the
uncaught exception, if any. -/
def webglcontextrestored (env : GLEnv) (renderingLoopId : ℕ) (s : Sched) (gl : GLState)
    (programs : List (String × ℕ)) :
    (ℕ × Sched × GLState × List (String × ℕ)) × Option String :=
  match setUpWebGL_ env none programs SHADER_IDS_ PROGRAM_SHADERS_ gl with
  | (gl1, progs1, Except.error e) => ((renderingLoopId, s, gl1, progs1), some e)
  | (gl1, progs1, Except.ok _) =>
    let r := startRendering renderingLoopId s
    ((r.1, r.2, gl1, progs1), none)

/-! ## Per-frame resize (`resize_`, renderer.js lines 348-366) -/
/-- The canvas backing-buffer dimensions (`canvas.width` / `canvas.height`). -/
structure CanvasState where
  width : ℤ
  height : ℤ
deriving DecidableEq

/-- `window.devicePixelRatio || 1` (renderer.js line 349): an absent (or
falsy, e.g. 0) device pixel ratio falls back to 1.  Read afresh inside every
`resize_` call. -/
def devicePixelRatioOr1 (devicePixelRatio : Option ℚ) : ℚ :=
  match devicePixelRatio with
  | none => 1
  | some r => if r = 0 then 1 else r

/-- The display size computed each frame (renderer.js lines 353-354):
`floor(clientWidth * pixelRatio)` and `floor(clientHeight * pixelRatio)`. -/
def displaySize (devicePixelRatio : Option ℚ) (clientWidth clientHeight : ℚ) : ℤ × ℤ :=
  (⌊clientWidth * devicePixelRatioOr1 devicePixelRatio⌋,
   ⌊clientHeight * devicePixelRatioOr1 devicePixelRatio⌋)

/-- `Landscape.Renderer.prototype.resize_` (renderer.js lines 348-366):
update the backing dimensions and set the viewport together when the computed
display size differs from the current backing size, otherwise do nothing.
The second component lists the `gl.viewport` calls performed. -/
def resize_ (devicePixelRatio : Option ℚ) (clientWidth clientHeight : ℚ)
    (c : CanvasState) : CanvasState × List (ℤ × ℤ) :=
  if c.width ≠ (displaySize devicePixelRatio clientWidth clientHeight).1 ∨
      c.height ≠ (displaySize devicePixelRatio clientWidth clientHeight).2 then
    (⟨(displaySize devicePixelRatio clientWidth clientHeight).1,
      (displaySize devicePixelRatio clientWidth clientHeight).2⟩,
     [((displaySize devicePixelRatio clientWidth clientHeight).1,
       (displaySize devicePixelRatio clientWidth clientHeight).2)])
  else
    (c, [])

/-! ### Helper lemmas -/
/-- Length of a flattened map whose blocks all have length `c`. -/
theorem length_flatten_map_const {α β : Type} (l : List α) (f : α → List β) (c : ℕ)
    (h : ∀ x ∈ l, (f x).length = c) : ((l.map f).flatten).length = l.length * c := by
  induction l with
  | nil => simp
  | cons a t ih =>
      simp only [List.map_cons, List.flatten_cons, List.length_append, List.length_cons]
      rw [h a (by simp), ih (fun x hx => h x (by simp [hx]))]
      ring

theorem map_eq_self_mem {α : Type} {f : α → α} :
    ∀ {l : List α}, l.map f = l → ∀ x ∈ l, f x = x := by
  intro l
  induction l with
  | nil => intro _ x hx; cases hx
  | cons a t ih =>
      intro h x hx
      rw [List.map_cons, List.cons.injEq] at h
      rcases List.mem_cons.mp hx with rfl | hx
      · exact h.1
      · exact ih h.2 x hx

theorem generateGrid_length (d : ℕ) : (generateGrid_ d).length = 2 * (d + 1) ^ 2 := by
  unfold generateGrid_
  rw [length_flatten_map_const _ _ (2 * (d + 1)) ?_, List.length_range]
  · ring
  · intro ki _
    rw [length_flatten_map_const _ _ 2 ?_, List.length_range]
    · ring
    · intro kj _
      simp

theorem emittedGridIndices_length (d : ℕ) :
    (emittedGridIndices d).length = d * (2 * d + 2) := by
  unfold emittedGridIndices
  rw [length_flatten_map_const _ _ (2 * d + 2) ?_, List.length_range]
  intro i _
  simp only [List.length_cons]
  rw [length_flatten_map_const _ _ 2 ?_, List.length_range]
  · omega
  · intro jm _
    simp

/-- Every value computed by the index generator is at most `d*(d+1) + d`,
which equals `(d+1)^2 - 1`. -/
theorem emittedGridIndices_le (d : ℕ) :
    ∀ x ∈ emittedGridIndices d, x ≤ d * (d + 1) + d := by
  intro x hx
  simp only [emittedGridIndices, List.mem_flatten, List.mem_map] at hx
  obtain ⟨l, ⟨i, hi, rfl⟩, hx⟩ := hx
  rw [List.mem_range] at hi
  have hmul1 : i * (d + 1) ≤ d * (d + 1) := Nat.mul_le_mul_right _ (Nat.le_of_lt hi)
  have hmul2 : (i + 1) * (d + 1) ≤ d * (d + 1) := Nat.mul_le_mul_right _ hi
  rcases List.mem_cons.mp hx with rfl | hx
  · omega
  rcases List.mem_cons.mp hx with rfl | hx
  · omega
  simp only [List.mem_flatten, List.mem_map] at hx
  obtain ⟨l2, ⟨jm, hjm, rfl⟩, hx⟩ := hx
  rw [List.mem_range] at hjm
  rcases List.mem_cons.mp hx with rfl | hx
  · omega
  rcases List.mem_cons.mp hx with rfl | hx
  · omega
  cases hx

theorem specGridIndices_eq_emitted (d : ℕ) : specGridIndices d = emittedGridIndices d := rfl

/-- Claim C3: for every positive `dimension` with `(dimension+1)^2 ≤ 65536`,
the vertex generator returns exactly `2*(dimension+1)^2` scalar components and
the index generator exactly `dimension*(2*dimension+2)` components.  Both are
(total, deterministic) Lean functions of `dimension` alone. -/
theorem claim_C3_grid_sizes (d : ℕ) (h1 : 0 < d) (h2 : (d + 1) ^ 2 ≤ 65536) :
    (generateGrid_ d).length = 2 * (d + 1) ^ 2 ∧
    (generateGridIndices_ d).length = d * (2 * d + 2) := by
  refine ⟨generateGrid_length d, ?_⟩
  unfold generateGridIndices_
  rw [List.length_map, emittedGridIndices_length]

theorem claim_C3_witness :
    0 < 2 ∧ (2 + 1) ^ 2 ≤ 65536 ∧
    ((generateGrid_ 2).length = 2 * (2 + 1) ^ 2 ∧
     (generateGridIndices_ 2).length = 2 * (2 * 2 + 2)) :=
  ⟨by norm_num, by norm_num, claim_C3_grid_sizes 2 (by norm_num) (by norm_num)⟩

/-- Claim C9: for every positive `dimension` with `(dimension+1)^2 ≤ 2^16`,
every index value computed by `generateGridIndices_` is at most
`(dimension+1)^2 - 1`, hence reduction modulo `2^16` (the `Uint16Array` store)
leaves every index unchanged.  The generator itself performs no runtime check:
it is total in `dimension`. -/
theorem claim_C9_index_bound (d : ℕ) (h1 : 0 < d) (h2 : (d + 1) ^ 2 ≤ 65536) :
    (∀ x ∈ emittedGridIndices d, x ≤ (d + 1) ^ 2 - 1 ∧ x % 65536 = x) ∧
    generateGridIndices_ d = emittedGridIndices d := by
  have hsq : (d + 1) ^ 2 = d * (d + 1) + d + 1 := by ring
  have hle : ∀ x ∈ emittedGridIndices d, x ≤ (d + 1) ^ 2 - 1 := by
    intro x hx
    have := emittedGridIndices_le d x hx
    omega
  have hmod : ∀ x ∈ emittedGridIndices d, x % 65536 = x := by
    intro x hx
    have := hle x hx
    exact Nat.mod_eq_of_lt (by omega)
  refine ⟨fun x hx => ⟨hle x hx, hmod x hx⟩, ?_⟩
  unfold generateGridIndices_
  calc (emittedGridIndices d).map (fun x => x % 65536)
      = (emittedGridIndices d).map id := List.map_congr_left hmod
    _ = emittedGridIndices d := List.map_id _

theorem claim_C9_witness :
    0 < 2 ∧ (2 + 1) ^ 2 ≤ 65536 ∧
    ((∀ x ∈ emittedGridIndices 2, x ≤ (2 + 1) ^ 2 - 1 ∧ x % 65536 = x) ∧
     generateGridIndices_ 2 = emittedGridIndices 2) :=
  ⟨by norm_num, by norm_num, claim_C9_index_bound 2 (by norm_num) (by norm_num)⟩

/-- Claim C5 counterexample: at `dimension = 256` (the smallest dimension where
an index value reaches 2^16) the `Uint16Array` store truncates: the row
`i = 255` emits `start2 = 256*257 = 65792`, stored as `65792 % 65536 = 256`,
so the output does not equal the sequence described by the claim. -/
theorem claim_C5_counterexample : generateGridIndices_ 256 ≠ specGridIndices 256 := by
  intro h
  have hmap : (emittedGridIndices 256).map (fun x => x % 65536) = emittedGridIndices 256 := h
  have hmem : (65792 : ℕ) ∈ emittedGridIndices 256 := by
    have h255 : (255 : ℕ) ∈ List.range 256 := List.mem_range.mpr (by norm_num)
    apply List.mem_flatten.mpr
    refine ⟨_, List.mem_map.mpr ⟨255, h255, rfl⟩, ?_⟩
    have he : (65792 : ℕ) = (255 + 1) * (256 + 1) := by norm_num
    exact he ▸ List.mem_cons_of_mem _ (List.mem_cons_self _ _)
  have := map_eq_self_mem hmap 65792 hmem
  norm_num at this

/-- Claim C5 as amended: under the 16-bit precondition
`(dimension+1)^2 ≤ 2^16` (stated in §4.1 of the spec), the output of
`generateGridIndices_` equals the row-by-row sequence
`(start1, start2), (start1+j, start2+j) for j = 1 .. dimension`; in particular
for `dimension = 2` it is `[0,3,1,4,2,5, 3,6,4,7,5,8]`.  For larger dimensions
the 16-bit element store truncates and the as-stated equality fails. -/
theorem claim_C5_amended :
    (∀ d : ℕ, 0 < d → (d + 1) ^ 2 ≤ 65536 → generateGridIndices_ d = specGridIndices d) ∧
    generateGridIndices_ 2 = [0, 3, 1, 4, 2, 5, 3, 6, 4, 7, 5, 8] := by
  constructor
  · intro d h1 h2
    rw [specGridIndices_eq_emitted]
    have hsq : (d + 1) ^ 2 = d * (d + 1) + d + 1 := by ring
    have hmod : ∀ x ∈ emittedGridIndices d, x % 65536 = x := by
      intro x hx
      have := emittedGridIndices_le d x hx
      exact Nat.mod_eq_of_lt (by omega)
    unfold generateGridIndices_
    calc (emittedGridIndices d).map (fun x => x % 65536)
        = (emittedGridIndices d).map id := List.map_congr_left hmod
      _ = emittedGridIndices d := List.map_id _
  · decide

theorem claim_C5_witness :
    0 < 2 ∧ (2 + 1) ^ 2 ≤ 65536 ∧ generateGridIndices_ 2 = specGridIndices 2 :=
  ⟨by norm_num, by norm_num, claim_C5_amended.1 2 (by norm_num) (by norm_num)⟩

/-- Claim C4 counterexample: at `dimension = 1` the code's `half = 1/2` is
fractional; the generator emits the four half-integer points
`(±1/2, ±1/2)` (8 components), not "one vertex per integer lattice point of
`[-half, half]`" (which would be the single point `(0,0)`). -/
theorem claim_C4_counterexample : generateGrid_ 1 ≠ specGridVertices 1 := by
  have h1 : (generateGrid_ 1).length = 8 := by
    simp [generateGrid_, List.range_succ]
  have h2 : (specGridVertices 1).length = 2 := by
    have hc : ⌈(-(2⁻¹ : ℚ))⌉ = 0 := by norm_num
    have hf : ⌊((2⁻¹ : ℚ))⌋ = 0 := by norm_num
    simp [specGridVertices, latticePoints, hc, hf, List.range_succ]
  intro h
  rw [h, h2] at h1
  exact absurd h1 (by norm_num)

theorem roundNearestEven_intCast (n : ℤ) : roundNearestEven (n : ℚ) = n := by
  unfold roundNearestEven
  rw [Int.floor_intCast]
  rw [if_pos]
  rw [sub_self]
  norm_num

theorem log2_one : Nat.log2 1 = 0 := by
  have h := (Nat.log2_lt (by norm_num)).mpr (show (1 : ℕ) < 2 ^ 1 by norm_num)
  omega

theorem qlog2_den_one (n : ℕ) (h : n ≠ 0) : qlog2 n 1 = Nat.log2 n := by
  unfold qlog2
  rw [log2_one]
  rw [if_pos (Nat.zero_le _)]
  rw [if_pos]
  · omega
  · simpa using Nat.log2_self_le h

/-- An integer of magnitude at most `2^24` is exactly representable in
binary32, so the `Float32Array` store is the identity on it.  (The first
integer this fails for is `2^24 + 1`.) -/
theorem fround32_intCast (n : ℤ) (h : n.natAbs ≤ 2 ^ 24) : fround32 (n : ℚ) = (n : ℚ) := by
  by_cases hn : n = 0
  · subst hn
    simp [fround32]
  · have hne : (n : ℚ) ≠ 0 := Int.cast_ne_zero.mpr hn
    have hna : n.natAbs ≠ 0 := Int.natAbs_ne_zero.mpr hn
    unfold fround32
    rw [if_neg hne, Rat.num_intCast, Rat.den_intCast, qlog2_den_one n.natAbs hna]
    set a := Nat.log2 n.natAbs with hadef
    have ha24 : a ≤ 24 := by
      have := (Nat.log2_lt hna).mpr (show n.natAbs < 2 ^ 25 by omega)
      omega
    rcases Nat.lt_or_ge a 24 with h23 | h24
    · -- quantum at most 1: n * 2^(23-a) is an integer
      have hk : (23 : ℤ) - (a : ℤ) = ((23 - a : ℕ) : ℤ) := by omega
      have hx : (n : ℚ) * (2 : ℚ) ^ ((23 : ℤ) - (a : ℤ))
          = ((n * 2 ^ (23 - a) : ℤ) : ℚ) := by
        rw [hk, zpow_natCast]
        push_cast
        ring
      rw [hx, roundNearestEven_intCast]
      have ha23 : (a : ℤ) - 23 = -(((23 - a : ℕ) : ℤ)) := by omega
      rw [ha23, zpow_neg, zpow_natCast]
      have hpow : ((2 : ℚ) ^ (23 - a)) ≠ 0 := by positivity
      push_cast
      field_simp
    · -- |n| = 2^24 exactly: the quantum is 2, but n is even
      have h24' : a = 24 := by omega
      have habs : n.natAbs = 2 ^ 24 := by
        have hge : 2 ^ 24 ≤ n.natAbs := by
          have := Nat.log2_self_le hna
          rw [← hadef, h24'] at this
          exact this
        omega
      have heven : Even n := by
        rw [← Int.natAbs_even, habs]
        exact ⟨2 ^ 23, by ring⟩
      obtain ⟨n2, rfl⟩ := heven
      have hk1 : (23 : ℤ) - (a : ℤ) = -1 := by omega
      have hk2 : (a : ℤ) - 23 = 1 := by omega
      have hx : ((n2 + n2 : ℤ) : ℚ) * (2 : ℚ) ^ (-1 : ℤ) = ((n2 : ℤ) : ℚ) := by
        rw [zpow_neg, zpow_one]
        push_cast
        ring
      rw [hk1, hk2, hx, roundNearestEven_intCast, zpow_one]
      push_cast
      ring

/-- Claim C4 as amended: for every positive **even** `dimension` (so that
`half = dimension/2` is an integer) with `dimension ≤ 2^25` (so that every
coordinate, of magnitude at most `half ≤ 2^24`, is exactly representable in
binary32 and survives the `Float32Array` store), `generateGrid_` emits one
vertex per integer lattice point `(j, i)` of `[-half, half]^2`, outer loop
`i` ascending, inner loop `j` ascending, components `j` then `i`; in
particular for `dimension = 2` the output is the nine points
`(-1,-1),(0,-1),(1,-1),(-1,0),(0,0),(1,0),(-1,1),(0,1),(1,1)` in that order.
For odd dimensions the emitted coordinates are half-integers, so the
"integer lattice point" description fails; beyond `2^25` the binary32 store
rounds coordinates (first at `dimension = 2^25 + 2`, where the lattice point
`2^24 + 1` is stored as `2^24`). -/
theorem claim_C4_amended :
    (∀ d : ℕ, 0 < d → d % 2 = 0 → d ≤ 2 ^ 25 → generateGrid_ d = specGridVertices d) ∧
    generateGrid_ 2 = [-1, -1, 0, -1, 1, -1, -1, 0, 0, 0, 1, 0, -1, 1, 0, 1, 1, 1] := by
  have hmain : ∀ d : ℕ, 0 < d → d % 2 = 0 → d ≤ 2 ^ 25 →
      generateGrid_ d = specGridVertices d := by
    intro d hd hev hle
    obtain ⟨m, rfl⟩ : ∃ m, d = m + m := (Nat.even_iff.mpr hev)
    have hm : m ≤ 2 ^ 24 := by omega
    have hhalf : ((m + m : ℕ) : ℚ) / 2 = (m : ℚ) := by push_cast; ring
    have hfl : ⌊((m + m : ℕ) : ℚ) / 2⌋ = (m : ℤ) := by
      rw [hhalf, Int.floor_natCast]
    have hce : ⌈-(((m + m : ℕ) : ℚ) / 2)⌉ = -(m : ℤ) := by
      rw [hhalf, Int.ceil_neg, Int.floor_natCast]
    have hcount : Int.toNat ((m : ℤ) - -(m : ℤ) + 1) = m + m + 1 := by omega
    have hlat : latticePoints (((m + m : ℕ) : ℚ) / 2)
        = (List.range (m + m + 1)).map (fun (k : ℕ) => -(m : ℤ) + (k : ℤ)) := by
      unfold latticePoints
      rw [hfl, hce, hcount]
    unfold specGridVertices generateGrid_
    rw [hlat, List.map_map]
    apply congrArg
    apply List.map_congr_left
    intro ki hki
    rw [List.mem_range] at hki
    simp only [Function.comp_apply, List.map_map]
    apply congrArg
    apply List.map_congr_left
    intro kj hkj
    rw [List.mem_range] at hkj
    simp only [Function.comp_apply, List.cons.injEq, and_true]
    constructor
    · have hv : -(((m + m : ℕ) : ℚ) / 2) + (kj : ℚ) = (((kj : ℤ) - (m : ℤ) : ℤ) : ℚ) := by
        rw [hhalf]
        push_cast
        ring
      rw [hv, fround32_intCast _ (by omega)]
      push_cast
      ring
    · have hv : -(((m + m : ℕ) : ℚ) / 2) + (ki : ℚ) = (((ki : ℤ) - (m : ℤ) : ℤ) : ℚ) := by
        rw [hhalf]
        push_cast
        ring
      rw [hv, fround32_intCast _ (by omega)]
      push_cast
      ring
  refine ⟨hmain, ?_⟩
  rw [hmain 2 (by norm_num) (by norm_num) (by norm_num)]
  have hc : ⌈(-1 : ℚ)⌉ = (-1 : ℤ) := by
    rw [show ((-1 : ℚ)) = (((-1 : ℤ) : ℚ)) by norm_num, Int.ceil_intCast]
  have ht : Int.toNat 3 = 3 := rfl
  norm_num [specGridVertices, latticePoints, List.range_succ, hc, ht]

theorem claim_C4_witness :
    0 < 2 ∧ 2 % 2 = 0 ∧ 2 ≤ 2 ^ 25 ∧ generateGrid_ 2 = specGridVertices 2 :=
  ⟨by norm_num, by norm_num, by norm_num,
   claim_C4_amended.1 2 (by norm_num) (by norm_num) (by norm_num)⟩

/-! ### Batch invariants -/
theorem createShaderFromScript_ok {env : GLEnv} {gl gl1 : GLState} {scriptId : String} {s : ℕ}
    (h : createShaderFromScript_ env gl scriptId = (gl1, Except.ok s)) :
    s = gl.nextId ∧
    gl1 = { gl with
            nextId := gl.nextId + 1
            shaders := gl.nextId :: gl.shaders
            lookupTrace := gl.lookupTrace ++ [scriptId] } := by
  simp only [createShaderFromScript_] at h
  split at h
  · exact absurd (congrArg Prod.snd h) (by simp)
  · split at h
    · exact absurd (congrArg Prod.snd h) (by simp)
    · split at h
      · exact absurd (congrArg Prod.snd h) (by simp)
      · have h1 := congrArg Prod.fst h
        have h2 := congrArg Prod.snd h
        simp only at h1 h2
        cases h2
        exact ⟨rfl, h1.symm⟩

theorem createShaderFromScript_err {env : GLEnv} {gl gl1 : GLState} {scriptId : String}
    {e : String} (h : createShaderFromScript_ env gl scriptId = (gl1, Except.error e)) :
    (∀ x ∈ gl1.shaders, x ∈ gl.shaders) ∧ gl1.programs = gl.programs := by
  simp only [createShaderFromScript_] at h
  split at h
  · have h1 := congrArg Prod.fst h
    simp only at h1
    rw [← h1]
    exact ⟨fun x hx => hx, rfl⟩
  · split at h
    · have h1 := congrArg Prod.fst h
      simp only at h1
      rw [← h1]
      exact ⟨fun x hx => hx, rfl⟩
    · split at h
      · have h1 := congrArg Prod.fst h
        simp only at h1
        rw [← h1]
        constructor
        · intro x hx
          simp only [List.mem_filter, List.mem_cons, bne_iff_ne, ne_eq] at hx
          rcases hx.1 with rfl | hmem
          · exact absurd rfl hx.2
          · exact hmem
        · rfl
      · exact absurd (congrArg Prod.snd h) (by simp)

theorem createProgram_ok {env : GLEnv} {gl gl1 : GLState} {v f p : ℕ}
    (h : createProgram_ env gl v f = (gl1, Except.ok p)) :
    p = gl.nextId ∧
    gl1 = { gl with
            nextId := gl.nextId + 1
            programs := gl.nextId :: gl.programs
            attachTrace := gl.attachTrace ++ [(gl.nextId, v, f)] } := by
  simp only [createProgram_] at h
  split at h
  · exact absurd (congrArg Prod.snd h) (by simp)
  · have h1 := congrArg Prod.fst h
    have h2 := congrArg Prod.snd h
    simp only at h1 h2
    cases h2
    exact ⟨rfl, h1.symm⟩

theorem createProgram_err {env : GLEnv} {gl gl1 : GLState} {v f : ℕ} {e : String}
    (h : createProgram_ env gl v f = (gl1, Except.error e)) :
    (∀ x ∈ gl1.programs, x ∈ gl.programs) ∧ gl1.shaders = gl.shaders ∧
    e = msgLink (env.programInfoLog gl.nextId) := by
  simp only [createProgram_] at h
  split at h
  · have h1 := congrArg Prod.fst h
    have h2 := congrArg Prod.snd h
    simp only at h1 h2
    cases h2
    rw [← h1]
    refine ⟨?_, rfl, rfl⟩
    intro x hx
    simp only [List.mem_filter, List.mem_cons, bne_iff_ne, ne_eq] at hx
    rcases hx.1 with rfl | hmem
    · exact absurd rfl hx.2
    · exact hmem
  · exact absurd (congrArg Prod.snd h) (by simp)

/-- Whatever happens inside the compile loop, the cache only grows, every live
shader is either recorded in the final cache or was live on entry, and the
program objects are untouched. -/
theorem compileLoop_mem (env : GLEnv) :
    ∀ (ids : List String) (gl : GLState) (acc : List (String × ℕ)),
      (∀ q ∈ acc, q ∈ (compileLoop_ env gl acc ids).2.1) ∧
      (∀ x ∈ (compileLoop_ env gl acc ids).1.shaders,
        x ∈ ((compileLoop_ env gl acc ids).2.1.map Prod.snd) ∨ x ∈ gl.shaders) ∧
      (compileLoop_ env gl acc ids).1.programs = gl.programs := by
  intro ids
  induction ids with
  | nil =>
      intro gl acc
      exact ⟨fun q hq => hq, fun x hx => Or.inr hx, rfl⟩
  | cons scriptId rest ih =>
      intro gl acc
      rcases hcs : createShaderFromScript_ env gl scriptId with ⟨gl1, r⟩
      cases r with
      | ok s =>
          have hok := createShaderFromScript_ok hcs
          have hred : compileLoop_ env gl acc (scriptId :: rest)
              = compileLoop_ env gl1 (acc ++ [(scriptId, s)]) rest := by
            rw [compileLoop_, hcs]
          rw [hred]
          obtain ⟨ihacc, ihsh, ihpr⟩ := ih gl1 (acc ++ [(scriptId, s)])
          refine ⟨fun q hq => ihacc q (by simp [hq]), ?_, ?_⟩
          · intro x hx
            rcases ihsh x hx with hc | hmem
            · exact Or.inl hc
            · rw [hok.2] at hmem
              simp only [List.mem_cons] at hmem
              rcases hmem with rfl | hmem
              · left
                have hm : (scriptId, s) ∈ (compileLoop_ env gl1 (acc ++ [(scriptId, s)]) rest).2.1 :=
                  ihacc (scriptId, s) (by simp)
                exact List.mem_map.mpr ⟨(scriptId, s), hm, hok.1⟩
              · exact Or.inr hmem
          · rw [ihpr, hok.2]
      | error e =>
          have herr := createShaderFromScript_err hcs
          have hred : compileLoop_ env gl acc (scriptId :: rest)
              = (gl1, acc, Except.error e) := by
            rw [compileLoop_, hcs]
          rw [hred]
          exact ⟨fun q hq => hq, fun x hx => Or.inr (herr.1 x hx), herr.2⟩

/-- A fully successful compile loop compiles exactly the listed sources, in
order, assigning consecutive object ids, and performs no other lookups or
attachments. -/
theorem compileLoop_ok (env : GLEnv) :
    ∀ (ids : List String) (gl gl1 : GLState) (acc cache : List (String × ℕ)),
      compileLoop_ env gl acc ids = (gl1, cache, Except.ok ()) →
      cache = acc ++ expectedShaders ids gl.nextId ∧
      gl1.lookupTrace = gl.lookupTrace ++ ids ∧
      gl1.nextId = gl.nextId + ids.length ∧
      gl1.attachTrace = gl.attachTrace ∧
      gl1.programs = gl.programs := by
  intro ids
  induction ids with
  | nil =>
      intro gl gl1 acc cache h
      rw [compileLoop_] at h
      have h1 := congrArg Prod.fst h
      have h2 := congrArg (fun z => z.2.1) h
      simp only at h1 h2
      subst h1
      subst h2
      simp [expectedShaders]
  | cons scriptId rest ih =>
      intro gl gl1 acc cache h
      rcases hcs : createShaderFromScript_ env gl scriptId with ⟨glm, r⟩
      cases r with
      | ok s =>
          have hok := createShaderFromScript_ok hcs
          rw [compileLoop_, hcs] at h
          obtain ⟨hcache, htrace, hnext, hattach, hprogs⟩ := ih glm gl1 (acc ++ [(scriptId, s)]) cache h
          have hs : s = gl.nextId := hok.1
          refine ⟨?_, ?_, ?_, ?_, ?_⟩
          · rw [hcache, hok.2, hs]
            simp [expectedShaders]
          · rw [htrace, hok.2]
            simp
          · rw [hnext, hok.2]
            simp only [List.length_cons]
            omega
          · rw [hattach, hok.2]
          · rw [hprogs, hok.2]
      | error e =>
          rw [compileLoop_, hcs] at h
          exact absurd (congrArg (fun z => z.2.2) h) (by simp)

/-- Whatever happens inside the link loop, the program map only grows, every
live program object is either recorded in the final map or was live on entry,
and the shader objects are untouched. -/
theorem linkLoop_mem (env : GLEnv) (cache : List (String × ℕ)) :
    ∀ (descs : List ProgDesc) (gl : GLState) (progs : List (String × ℕ)),
      (∀ q ∈ progs, q ∈ (linkLoop_ env cache gl progs descs).2.1) ∧
      (∀ x ∈ (linkLoop_ env cache gl progs descs).1.programs,
        x ∈ ((linkLoop_ env cache gl progs descs).2.1.map Prod.snd) ∨ x ∈ gl.programs) ∧
      (linkLoop_ env cache gl progs descs).1.shaders = gl.shaders := by
  intro descs
  induction descs with
  | nil =>
      intro gl progs
      exact ⟨fun q hq => hq, fun x hx => Or.inr hx, rfl⟩
  | cons d rest ih =>
      intro gl progs
      rcases hcp : createProgram_ env gl ((cache.lookup d.vertex).getD 0)
          ((cache.lookup d.fragment).getD 0) with ⟨gl1, r⟩
      cases r with
      | ok p =>
          have hok := createProgram_ok hcp
          have hred : linkLoop_ env cache gl progs (d :: rest)
              = linkLoop_ env cache gl1 (progs ++ [(d.id, p)]) rest := by
            rw [linkLoop_, hcp]
          rw [hred]
          obtain ⟨ihacc, ihpr, ihsh⟩ := ih gl1 (progs ++ [(d.id, p)])
          refine ⟨fun q hq => ihacc q (by simp [hq]), ?_, ?_⟩
          · intro x hx
            rcases ihpr x hx with hc | hmem
            · exact Or.inl hc
            · rw [hok.2] at hmem
              simp only [List.mem_cons] at hmem
              rcases hmem with rfl | hmem
              · left
                have hm : (d.id, p) ∈ (linkLoop_ env cache gl1 (progs ++ [(d.id, p)]) rest).2.1 :=
                  ihacc (d.id, p) (by simp)
                exact List.mem_map.mpr ⟨(d.id, p), hm, hok.1⟩
              · exact Or.inr hmem
          · rw [ihsh, hok.2]
      | error e =>
          have herr := createProgram_err hcp
          have hred : linkLoop_ env cache gl progs (d :: rest)
              = (gl1, progs, Except.error e) := by
            rw [linkLoop_, hcp]
          rw [hred]
          exact ⟨fun q hq => hq, fun x hx => Or.inr (herr.1 x hx), herr.2.1⟩

/-- A fully successful link loop links exactly the listed descriptors, in
order, assigning consecutive program object ids and attaching the cached
shaders each descriptor references; shaders and lookups are untouched. -/
theorem linkLoop_ok (env : GLEnv) (cache : List (String × ℕ)) :
    ∀ (descs : List ProgDesc) (gl gl2 : GLState) (progs progs2 : List (String × ℕ)),
      linkLoop_ env cache gl progs descs = (gl2, progs2, Except.ok ()) →
      progs2 = progs ++ expectedProgs descs gl.nextId ∧
      gl2.attachTrace = gl.attachTrace ++ expectedAttach descs cache gl.nextId ∧
      gl2.lookupTrace = gl.lookupTrace ∧
      gl2.shaders = gl.shaders := by
  intro descs
  induction descs with
  | nil =>
      intro gl gl2 progs progs2 h
      rw [linkLoop_] at h
      have h1 := congrArg Prod.fst h
      have h2 := congrArg (fun z => z.2.1) h
      simp only at h1 h2
      subst h1
      subst h2
      simp [expectedProgs, expectedAttach]
  | cons d rest ih =>
      intro gl gl2 progs progs2 h
      rcases hcp : createProgram_ env gl ((cache.lookup d.vertex).getD 0)
          ((cache.lookup d.fragment).getD 0) with ⟨glm, r⟩
      cases r with
      | ok p =>
          obtain ⟨hp, hglm⟩ := createProgram_ok hcp
          subst hglm
          subst hp
          rw [linkLoop_, hcp] at h
          obtain ⟨hprogs, hattach, htrace, hsh⟩ := ih _ gl2 _ progs2 h
          refine ⟨?_, ?_, ?_, ?_⟩
          · rw [hprogs]
            simp [expectedProgs]
          · rw [hattach]
            simp [expectedAttach]
          · rw [htrace]
          · rw [hsh]
      | error e =>
          rw [linkLoop_, hcp] at h
          exact absurd (congrArg (fun z => z.2.2) h) (by simp)

/-- Membership in the shader list after the catch block's deletions: the
shader survives iff it was live and is not recorded in the cache. -/
theorem deleteBatch_shaders_mem (cache progs : List (String × ℕ)) (gl : GLState) (x : ℕ) :
    x ∈ (deleteBatch_ gl cache progs).shaders ↔
      x ∈ gl.shaders ∧ x ∉ cache.map Prod.snd := by
  have hfold2 : ∀ (ps : List (String × ℕ)) (g : GLState),
      (ps.foldl (fun g p => { g with programs := g.programs.filter (fun x => x != p.2) }) g).shaders
        = g.shaders := by
    intro ps
    induction ps with
    | nil => intro g; rfl
    | cons q rest ih => intro g; rw [List.foldl_cons, ih]
  have hfold1 : ∀ (cs : List (String × ℕ)) (g : GLState),
      x ∈ (cs.foldl (fun g p => { g with shaders := g.shaders.filter (fun x => x != p.2) }) g).shaders
        ↔ x ∈ g.shaders ∧ x ∉ cs.map Prod.snd := by
    intro cs
    induction cs with
    | nil => intro g; simp
    | cons q rest ih =>
        intro g
        rw [List.foldl_cons, ih]
        simp only [List.mem_filter, bne_iff_ne, ne_eq, List.map_cons, List.mem_cons]
        constructor
        · rintro ⟨⟨hg, hq⟩, hrest⟩
          exact ⟨hg, by simp [hq, hrest]⟩
        · rintro ⟨hg, hni⟩
          push_neg at hni
          exact ⟨⟨hg, by simpa using hni.1⟩, hni.2⟩
  unfold deleteBatch_
  rw [hfold2, hfold1]

/-- Membership in the program-object list after the catch block's deletions:
the program survives iff it was live and is not recorded in `this.programs_`. -/
theorem deleteBatch_programs_mem (cache progs : List (String × ℕ)) (gl : GLState) (x : ℕ) :
    x ∈ (deleteBatch_ gl cache progs).programs ↔
      x ∈ gl.programs ∧ x ∉ progs.map Prod.snd := by
  have hfold1 : ∀ (cs : List (String × ℕ)) (g : GLState),
      (cs.foldl (fun g p => { g with shaders := g.shaders.filter (fun x => x != p.2) }) g).programs
        = g.programs := by
    intro cs
    induction cs with
    | nil => intro g; rfl
    | cons q rest ih => intro g; rw [List.foldl_cons, ih]
  have hfold2 : ∀ (ps : List (String × ℕ)) (g : GLState),
      x ∈ (ps.foldl (fun g p => { g with programs := g.programs.filter (fun x => x != p.2) }) g).programs
        ↔ x ∈ g.programs ∧ x ∉ ps.map Prod.snd := by
    intro ps
    induction ps with
    | nil => intro g; simp
    | cons q rest ih =>
        intro g
        rw [List.foldl_cons, ih]
        simp only [List.mem_filter, bne_iff_ne, ne_eq, List.map_cons, List.mem_cons]
        constructor
        · rintro ⟨⟨hg, hq⟩, hrest⟩
          exact ⟨hg, by simp [hq, hrest]⟩
        · rintro ⟨hg, hni⟩
          push_neg at hni
          exact ⟨⟨hg, by simpa using hni.1⟩, hni.2⟩
  unfold deleteBatch_
  rw [hfold2, hfold1]

/-- Claim C1 as amended: if any step of the batch set-up fails, every GPU
shader and program object created during the batch (starting from a fresh
context and an empty program map, as at construction) has been deleted by the
time the error propagates — no GPU object leaks.  The error carries the
compiler/linker diagnostic text, but the
renderer's `programs_` map is *not* cleared, so entries for programs linked
earlier in the failed batch remain observable, and a link error names neither
the failing program nor its shaders. -/
theorem claim_C1_no_gpu_leak_on_error (env : GLEnv) (shaderIds : List String)
    (programShaders : List ProgDesc) (gl' : GLState) (ps : List (String × ℕ)) (e : String)
    (h : setUpWebGL_ env (some ()) [] shaderIds programShaders glInit
      = (gl', ps, Except.error e)) :
    gl'.shaders = [] ∧ gl'.programs = [] := by
  simp only [setUpWebGL_] at h
  split at h
  · -- no context at all: state untouched, still empty
    have hgl := congrArg Prod.fst h
    simp only at hgl
    subst hgl
    exact ⟨rfl, rfl⟩
  split at h
  · -- extension unavailable: catch runs with empty cache and empty map
    have hgl := congrArg Prod.fst h
    simp only at hgl
    subst hgl
    exact ⟨rfl, rfl⟩
  · split at h
    next gl1 cache e0 heq =>
      -- a shader failed to compile: catch deletes the cached shaders
      have hm := compileLoop_mem env shaderIds glInit []
      rw [heq] at hm
      have hgl := congrArg Prod.fst h
      simp only at hgl
      subst hgl
      constructor
      · rw [List.eq_nil_iff_forall_not_mem]
        intro x hx
        rw [deleteBatch_shaders_mem] at hx
        rcases hm.2.1 x hx.1 with hc | hempty
        · exact hx.2 hc
        · cases hempty
      · rw [List.eq_nil_iff_forall_not_mem]
        intro x hx
        rw [deleteBatch_programs_mem] at hx
        have hpr := hm.2.2
        rw [hpr] at hx
        cases hx.1
    next gl1 cache u heq =>
      have hm := compileLoop_mem env shaderIds glInit []
      rw [heq] at hm
      split at h
      next gl2 progs e0 heq2 =>
        -- a program failed to link: catch deletes cached shaders and mapped programs
        have hlm := linkLoop_mem env cache programShaders gl1 []
        rw [heq2] at hlm
        have hgl := congrArg Prod.fst h
        simp only at hgl
        subst hgl
        constructor
        · rw [List.eq_nil_iff_forall_not_mem]
          intro x hx
          rw [deleteBatch_shaders_mem] at hx
          have hsh2 : gl2.shaders = gl1.shaders := hlm.2.2
          rw [hsh2] at hx
          rcases hm.2.1 x hx.1 with hc | hempty
          · exact hx.2 hc
          · cases hempty
        · rw [List.eq_nil_iff_forall_not_mem]
          intro x hx
          rw [deleteBatch_programs_mem] at hx
          rcases hlm.2.1 x hx.1 with hc | hmem
          · exact hx.2 hc
          · rw [hm.2.2] at hmem
            cases hmem
      next gl2 progs u2 heq2 =>
        exact absurd (congrArg (fun z => z.2.2) h) (by simp)

/-- Claim C1 counterexample: when the `wireframe` program links but the
`mountains` program fails to link, the batch aborts — yet after the error
propagates the renderer's observable program map still contains the
`wireframe` entry (it is never cleared), so the all-or-nothing invariant
fails; moreover the propagated error (`Error linking program: `) is
identical to the error of the run in which the *other* program fails, so the
error does not identify the failing program. -/
theorem claim_C1_counterexample :
    (setUpWebGL_ envLinkFailSecond (some ()) [] SHADER_IDS_ PROGRAM_SHADERS_ glInit).2.1
        = [(wireframeId, 2)] ∧
    (setUpWebGL_ envLinkFailSecond (some ()) [] SHADER_IDS_ PROGRAM_SHADERS_ glInit).2.1 ≠ [] ∧
    (setUpWebGL_ envLinkFailSecond (some ()) [] SHADER_IDS_ PROGRAM_SHADERS_ glInit).2.2
        = Except.error (msgLink (String.mk [])) ∧
    (setUpWebGL_ envLinkFailFirst (some ()) [] SHADER_IDS_ PROGRAM_SHADERS_ glInit).2.2
        = (setUpWebGL_ envLinkFailSecond (some ()) [] SHADER_IDS_ PROGRAM_SHADERS_ glInit).2.2 :=
  ⟨rfl, by decide, rfl, rfl⟩

theorem claim_C1_witness :
    setUpWebGL_ envLinkFailSecond (some ()) [] SHADER_IDS_ PROGRAM_SHADERS_ glInit
      = (⟨4, [], [], SHADER_IDS_, [(2, 0, 1), (3, 0, 1)]⟩,
         [(wireframeId, 2)], Except.error (msgLink (String.mk []))) ∧
    (⟨4, [], [], SHADER_IDS_, [(2, 0, 1), (3, 0, 1)]⟩ : GLState).shaders = [] ∧
    (⟨4, [], [], SHADER_IDS_, [(2, 0, 1), (3, 0, 1)]⟩ : GLState).programs = [] :=
  ⟨rfl,
   claim_C1_no_gpu_leak_on_error envLinkFailSecond SHADER_IDS_ PROGRAM_SHADERS_
     ⟨4, [], [], SHADER_IDS_, [(2, 0, 1), (3, 0, 1)]⟩
     [(wireframeId, 2)] (msgLink (String.mk [])) rfl⟩

/-- Claim C6: in any successful batch from construction, each unique shader
source id is looked up and compiled exactly once — the lookup trace is exactly
`SHADER_IDS_`, with one lookup per unique source id even though both program
descriptors reference the same two sources — and each program is linked from
the two cached compiled shaders its descriptor references (shader objects 0
and 1, bound in the cache to the two source ids). -/
theorem claim_C6_compile_each_source_once (env : GLEnv) (gl' : GLState)
    (ps : List (String × ℕ))
    (h : setUpWebGL_ env (some ()) [] SHADER_IDS_ PROGRAM_SHADERS_ glInit
      = (gl', ps, Except.ok ())) :
    gl'.lookupTrace = SHADER_IDS_ ∧
    gl'.lookupTrace.count wireframeVertexId = 1 ∧
    gl'.lookupTrace.count wireframeFragmentId = 1 ∧
    (PROGRAM_SHADERS_.filter (fun d => d.vertex == wireframeVertexId)).length = 2 ∧
    ps = [(wireframeId, 2), (mountainsId, 3)] ∧
    gl'.attachTrace = [(2, 0, 1), (3, 0, 1)] ∧
    (expectedShaders SHADER_IDS_ 0).lookup wireframeVertexId = some 0 ∧
    (expectedShaders SHADER_IDS_ 0).lookup wireframeFragmentId = some 1 := by
  simp only [setUpWebGL_] at h
  split at h
  · exact absurd (congrArg (fun z => z.2.2) h) (by simp)
  split at h
  · exact absurd (congrArg (fun z => z.2.2) h) (by simp)
  · split at h
    next gl1 cache e0 heq =>
      exact absurd (congrArg (fun z => z.2.2) h) (by simp)
    next gl1 cache u heq =>
      obtain ⟨hcache, htrace, hnext, hattach, hprogs⟩ :=
        compileLoop_ok env SHADER_IDS_ glInit gl1 [] cache heq
      split at h
      next gl2 progs e0 heq2 =>
        exact absurd (congrArg (fun z => z.2.2) h) (by simp)
      next gl2 progs u2 heq2 =>
        obtain ⟨hprogs2, hattach2, htrace2, hsh2⟩ :=
          linkLoop_ok env cache PROGRAM_SHADERS_ gl1 gl2 [] progs heq2
        have hgl : gl2 = gl' := congrArg Prod.fst h
        have hps : progs = ps := congrArg (fun z => z.2.1) h
        subst hgl
        subst hps
        have htr : gl2.lookupTrace = SHADER_IDS_ := by
          rw [htrace2, htrace]
          simp [glInit]
        refine ⟨htr, ?_, ?_, by decide, ?_, ?_, by decide, by decide⟩
        · rw [htr]
          decide
        · rw [htr]
          decide
        · rw [hprogs2, hnext]
          decide
        · rw [hattach2, hattach, hcache, hnext]
          decide

theorem claim_C6_witness :
    setUpWebGL_ envAllOk (some ()) [] SHADER_IDS_ PROGRAM_SHADERS_ glInit
      = (⟨4, [1, 0], [3, 2], SHADER_IDS_, [(2, 0, 1), (3, 0, 1)]⟩,
         [(wireframeId, 2), (mountainsId, 3)], Except.ok ()) ∧
    (⟨4, [1, 0], [3, 2], SHADER_IDS_, [(2, 0, 1), (3, 0, 1)]⟩ : GLState).lookupTrace
      = SHADER_IDS_ ∧
    (⟨4, [1, 0], [3, 2], SHADER_IDS_, [(2, 0, 1), (3, 0, 1)]⟩ : GLState).lookupTrace.count
        wireframeVertexId = 1 :=
  ⟨rfl,
   (claim_C6_compile_each_source_once envAllOk
     ⟨4, [1, 0], [3, 2], SHADER_IDS_, [(2, 0, 1), (3, 0, 1)]⟩
     [(wireframeId, 2), (mountainsId, 3)] rfl).1,
   (claim_C6_compile_each_source_once envAllOk
     ⟨4, [1, 0], [3, 2], SHADER_IDS_, [(2, 0, 1), (3, 0, 1)]⟩
     [(wireframeId, 2), (mountainsId, 3)] rfl).2.1⟩

/-- Claim C2 counterexample: losing the context while loop handle 5 is active
does cancel the pending frame, but `renderingLoopId_` stays 5 — it does not
become 0 as the claim states. -/
theorem claim_C2_counterexample :
    webglcontextlost 5 ⟨6, [5]⟩ = (5, ⟨6, []⟩) ∧ (webglcontextlost 5 ⟨6, [5]⟩).1 ≠ 0 :=
  ⟨rfl, by decide⟩

/-- Claim C2 as amended: with a rendering loop active
(`renderingLoopId_ ≠ 0`), a context-loss notification synchronously cancels
the Frame Scheduler — the active handle is removed from the pending queue, so
no frame callback fires against the invalidated context — but
`renderingLoopId_` is *not* reset: it keeps its previous nonzero value. -/
theorem claim_C2_loss_cancels_frame (renderingLoopId : ℕ) (s : Sched)
    (h : renderingLoopId ≠ 0) :
    (webglcontextlost renderingLoopId s).2.pending
        = s.pending.filter (fun x => x != renderingLoopId) ∧
    renderingLoopId ∉ (webglcontextlost renderingLoopId s).2.pending ∧
    (webglcontextlost renderingLoopId s).1 = renderingLoopId := by
  have hb : (renderingLoopId != 0) = true := by simpa using h
  simp only [webglcontextlost, hb, if_true, cancelAnimationFrame_]
  simp [List.mem_filter]

theorem claim_C2_witness :
    (5 : ℕ) ≠ 0 ∧
    (webglcontextlost 5 ⟨6, [5, 9]⟩).2.pending = [5, 9].filter (fun x => x != 5) ∧
    5 ∉ (webglcontextlost 5 ⟨6, [5, 9]⟩).2.pending ∧
    (webglcontextlost 5 ⟨6, [5, 9]⟩).1 = 5 :=
  ⟨by decide, (claim_C2_loss_cancels_frame 5 ⟨6, [5, 9]⟩ (by decide)).1,
   (claim_C2_loss_cancels_frame 5 ⟨6, [5, 9]⟩ (by decide)).2.1,
   (claim_C2_loss_cancels_frame 5 ⟨6, [5, 9]⟩ (by decide)).2.2⟩

/-- Claim C7 (code bug): for *every* environment and renderer state, the
restore handler throws a TypeError before re-acquiring anything: it invokes
`Landscape.Renderer.setUpWebGL_()` without rebinding `this` to the renderer
(the constructor uses `setUpWebGL_.call(this)`), so `this.canvas_` is
`undefined` inside `setUpWebGL_` and the handler dies reading `getContext`.
No context is re-acquired, no program is recompiled, `startRendering` never
runs and no new loop is scheduled — contradicting both the claim and the
code's own intent ("Re-setup the whole WebGL"). -/
theorem claim_C7_restore_throws (env : GLEnv) (renderingLoopId : ℕ) (s : Sched)
    (gl : GLState) (programs : List (String × ℕ)) :
    webglcontextrestored env renderingLoopId s gl programs
      = ((renderingLoopId, s, gl, programs), some msgTypeError) := rfl

/-- Claim C8: each frame's resize computes
`displayWidth = floor(clientWidth * pixelRatio)`,
`displayHeight = floor(clientHeight * pixelRatio)` and updates the backing
dimensions and the viewport together exactly when the computed size differs
from the current backing size; a call with unchanged inputs touches nothing.
In particular, from backing size 800×600 with `clientWidth = 800`,
`clientHeight = 600`, `pixelRatio = 2`, the backing size becomes 1600×1200
with a single viewport call, and a repeated call changes nothing. -/
theorem claim_C8_resize_iff_mismatch (dpr : Option ℚ) (cw ch : ℚ) (c : CanvasState) :
    ((c.width ≠ (displaySize dpr cw ch).1 ∨ c.height ≠ (displaySize dpr cw ch).2) →
      resize_ dpr cw ch c
        = (⟨(displaySize dpr cw ch).1, (displaySize dpr cw ch).2⟩,
           [((displaySize dpr cw ch).1, (displaySize dpr cw ch).2)])) ∧
    (c.width = (displaySize dpr cw ch).1 ∧ c.height = (displaySize dpr cw ch).2 →
      resize_ dpr cw ch c = (c, [])) ∧
    resize_ (some 2) 800 600 ⟨800, 600⟩ = (⟨1600, 1200⟩, [(1600, 1200)]) ∧
    resize_ (some 2) 800 600 ⟨1600, 1200⟩ = (⟨1600, 1200⟩, []) := by
  refine ⟨?_, ?_, ?_, ?_⟩
  · intro h
    unfold resize_
    rw [if_pos h]
  · intro h
    unfold resize_
    rw [if_neg (by push_neg; exact h)]
  · norm_num [resize_, displaySize, devicePixelRatioOr1]
  · norm_num [resize_, displaySize, devicePixelRatioOr1]

theorem claim_C8_witness :
    ((⟨800, 600⟩ : CanvasState).width ≠ (displaySize (some 2) 800 600).1 ∨
     (⟨800, 600⟩ : CanvasState).height ≠ (displaySize (some 2) 800 600).2) ∧
    resize_ (some 2) 800 600 ⟨800, 600⟩
      = (⟨(displaySize (some 2) 800 600).1, (displaySize (some 2) 800 600).2⟩,
         [((displaySize (some 2) 800 600).1, (displaySize (some 2) 800 600).2)]) :=
  ⟨by norm_num [displaySize, devicePixelRatioOr1],
   (claim_C8_resize_iff_mismatch (some 2) 800 600 ⟨800, 600⟩).1
     (by norm_num [displaySize, devicePixelRatioOr1])⟩

/-- Claim C10: when the host provides no device pixel ratio (absent or 0),
`resize_` behaves exactly as with pixel ratio 1, so the target backing size is
`(floor clientWidth, floor clientHeight)`; the fallback is recomputed from the
per-frame input on every call — a later frame that does see a ratio (here 2)
uses it. -/
theorem claim_C10_pixel_ratio_fallback :
    (∀ (cw ch : ℚ) (c : CanvasState),
      resize_ none cw ch c = resize_ (some 1) cw ch c ∧
      resize_ (some 0) cw ch c = resize_ (some 1) cw ch c ∧
      displaySize none cw ch = (⌊cw⌋, ⌊ch⌋)) ∧
    resize_ (some 2) 800 600 ((resize_ none 800 600 ⟨0, 0⟩).1)
      = (⟨1600, 1200⟩, [(1600, 1200)]) := by
  constructor
  · intro cw ch c
    refine ⟨?_, ?_, ?_⟩
    · simp [resize_, displaySize, devicePixelRatioOr1]
    · simp [resize_, displaySize, devicePixelRatioOr1]
    · simp [displaySize, devicePixelRatioOr1]
  · have h1 : (resize_ none 800 600 ⟨0, 0⟩).1 = (⟨800, 600⟩ : CanvasState) := by
      norm_num [resize_, displaySize, devicePixelRatioOr1]
    rw [h1]
    norm_num [resize_, displaySize, devicePixelRatioOr1]
